import Mathlib

/-
Verification of the rust-sdl2_ttf wrapper (src/sdl2_ttf/lib.rs and
src/sdl2_ttf/context.rs) against its natural-language specification.

The wrapper is FFI glue: every interesting function calls into the native
SDL2_ttf library and post-processes the returned value.  The shallow
embedding below therefore models each wrapper function as a pure Lean
function that
  - takes the native library's responses (return codes, out-parameters,
    returned pointers, the error string) as explicit arguments, and
  - returns the wrapper's result together with the list of FFI calls the
    wrapper body performs, in order.
Raw native pointers are modelled as Nat with 0 playing the role of the null
pointer.  C strings and byte slices are modelled as List Nat (byte values).
Rust panics (unwrap on a failed CString::new) are modelled by an Option
layer: none is a panic, some r is a normal return of r.
-/

namespace Sdl2Ttf

/-- SDL_Color (four byte channels). -/
structure SDL_Color where
  r : Nat
  g : Nat
  b : Nat
  a : Nat
deriving DecidableEq, Repr

/-- sdl2 pixel color enum: RGB or RGBA. -/
inductive Color where
  | RGB (r g b : Nat)
  | RGBA (r g b a : Nat)
deriving DecidableEq, Repr

/-- lib.rs color_to_c_color: RGB gets alpha 255, RGBA keeps its alpha. -/
def color_to_c_color : Color → SDL_Color
  | Color.RGB r g b => ⟨r, g, b, 255⟩
  | Color.RGBA r g b a => ⟨r, g, b, a⟩

/-- The native SDL2_ttf entry points the wrapper invokes, with the arguments
the wrapper passes (only those that the claims are about). -/
inductive FFICall where
  | wasInit
  | ttfInit
  | ttfQuit
  | closeFont (raw : Nat)
  | openFont (path : String) (ptsize : Int)
  | openFontIndex (path : String) (ptsize : Int) (index : Int)
  | openFontRW (rw : Nat) (freesrc : Int) (ptsize : Int)
  | openFontIndexRW (rw : Nat) (freesrc : Int) (ptsize : Int) (index : Int)
  | glyphIsProvided (raw : Nat) (codepoint : Nat)
  | glyphMetrics (raw : Nat) (codepoint : Nat)
  | sizeText (raw : Nat) (text : List Nat)
  | sizeUTF8 (raw : Nat) (text : List Nat)
  | renderTextSolid (raw : Nat) (text : List Nat) (fg : SDL_Color)
  | renderGlyphSolid (raw : Nat) (codepoint : Nat) (fg : SDL_Color)
  | renderGlyphShaded (raw : Nat) (codepoint : Nat) (fg bg : SDL_Color)
  | renderGlyphBlended (raw : Nat) (codepoint : Nat) (fg : SDL_Color)
  | setFontStyle (raw : Nat) (styles : Int)
  | setFontOutline (raw : Nat) (outline : Int)
  | setFontHinting (raw : Nat) (hinting : Int)
  | setFontKerning (raw : Nat) (kerning : Int)
deriving DecidableEq, Repr

/-- Native library state the wrapper observes: whether the font subsystem is
initialized (TTF_WasInit returns 1 after a successful TTF_Init and 0 after
TTF_Quit; this is the documented SDL2_ttf semantics the wrapper relies on). -/
structure NativeState where
  inited : Bool
deriving DecidableEq, Repr

/-- Effect of one FFI call on the native initialization state. -/
def applyCall (s : NativeState) : FFICall → NativeState
  | FFICall.ttfInit => ⟨true⟩
  | FFICall.ttfQuit => ⟨false⟩
  | _ => s

/-- Run a trace of FFI calls from a native state. -/
def runTrace (s : NativeState) (t : List FFICall) : NativeState :=
  t.foldl applyCall s

/-- lib.rs Font struct: a raw native handle plus the ownership flag.  These
are its only fields. -/
structure Font where
  raw : Nat
  owned : Bool
deriving DecidableEq, Repr

/-- lib.rs Font::from_ll. -/
def Font.from_ll (raw : Nat) (owned : Bool) : Font :=
  ⟨raw, owned⟩

/-- lib.rs impl Drop for Font (lines 120-131): when owned, query
TTF_WasInit and close the handle only if the library is still initialized;
when not owned, do nothing.  `wasInitNow` is the value TTF_WasInit() == 1
would have at drop time. -/
def Font.drop (self : Font) (wasInitNow : Bool) : List FFICall :=
  if self.owned then
    FFICall.wasInit :: (if wasInitNow then [FFICall.closeFont self.raw] else [])
  else []

/-- context.rs InitError: either the native initializer failed (carrying the
last OS error, modelled as its raw integer) or the library was already
initialized. -/
inductive InitError where
  | InitializationError (osError : Int)
  | AlreadyInitializedError
deriving DecidableEq, Repr

/-- context.rs Sdl2TtfContext: a fieldless context token. -/
structure Sdl2TtfContext where
deriving DecidableEq, Repr

namespace context

/-- context.rs init (lines 120-132): if TTF_WasInit() == 1, fail with
AlreadyInitializedError without calling TTF_Init; otherwise call TTF_Init
and succeed iff it returned 0, else fail with the last OS error.
`wasInit` is the value of TTF_WasInit() == 1, `ttfInitRet` the value
TTF_Init() would return, `lastOsError` the OS error after a failed init. -/
def init (wasInit : Bool) (ttfInitRet : Int) (lastOsError : Int) :
    Except InitError Sdl2TtfContext × List FFICall :=
  if wasInit then
    (Except.error InitError.AlreadyInitializedError, [FFICall.wasInit])
  else if ttfInitRet = 0 then
    (Except.ok ⟨⟩, [FFICall.wasInit, FFICall.ttfInit])
  else
    (Except.error (InitError.InitializationError lastOsError),
     [FFICall.wasInit, FFICall.ttfInit])

/-- context.rs impl Drop for Sdl2TtfContext (lines 24-28): call TTF_Quit. -/
def contextDrop : List FFICall := [FFICall.ttfQuit]

/-- context.rs has_been_initialized (lines 135-139): TTF_WasInit() == 1. -/
def has_been_initialized (s : NativeState) : Bool := s.inited

end context

namespace lib

/-- lib.rs init (lines 89-98): if TTF_WasInit() == 1 return true without
calling TTF_Init, else call TTF_Init and return whether it returned 0. -/
def init (wasInit : Bool) (ttfInitRet : Int) : Bool × List FFICall :=
  if wasInit then (true, [FFICall.wasInit])
  else (decide (ttfInitRet = 0), [FFICall.wasInit, FFICall.ttfInit])

/-- lib.rs was_inited (lines 100-105): TTF_WasInit() == 1. -/
def was_inited (s : NativeState) : Bool := s.inited

/-- lib.rs quit (lines 107-110): call TTF_Quit. -/
def quit : List FFICall := [FFICall.ttfQuit]

end lib

/-- sdl2 RWops data source, identified by its raw native pointer. -/
structure RWops where
  raw : Nat
deriving DecidableEq, Repr

/-- `ch as u16` in Rust: the Unicode code point reduced modulo 2^16. -/
def charToU16 (ch : Char) : Nat := ch.toNat % 65536

/-- CString::new on a byte slice: fails (so the source's .unwrap() panics)
exactly when the bytes contain an interior NUL (a 0 byte). -/
def cstring_new (bytes : List Nat) : Option (List Nat) :=
  if bytes.contains 0 then none else some bytes

/-- sdl2 Surface handle as built by Surface::from_ll(raw, owned). -/
structure Surface where
  raw : Nat
  owned : Bool
deriving DecidableEq, Repr

/-- lib.rs GlyphMetrics struct. -/
structure GlyphMetrics where
  minx : Int
  maxx : Int
  miny : Int
  maxy : Int
  advance : Int
deriving DecidableEq, Repr

/-- Response of the native TTF_GlyphMetrics call: its return status and the
five out-parameter values it writes. -/
structure GlyphMetricsNative where
  ret : Int
  minx : Int
  maxx : Int
  miny : Int
  maxy : Int
  advance : Int
deriving DecidableEq, Repr

namespace Font

/-- lib.rs Font::from_file (lines 138-149): open the file with TTF_OpenFont;
return Err(get_error()) on a null handle, else Ok(Font raw owned=true).
`rawRet` is the handle the native call returns (0 = null), `err` the
native error string get_error() would produce. -/
def from_file (filename : String) (ptsize : Int) (rawRet : Nat) (err : String) :
    Except String Font × List FFICall :=
  ((if rawRet = 0 then Except.error err else Except.ok ⟨rawRet, true⟩),
   [FFICall.openFont filename ptsize])

/-- lib.rs Font::from_file_index (lines 151-162): as from_file but with a
face index, via TTF_OpenFontIndex. -/
def from_file_index (filename : String) (ptsize index : Int)
    (rawRet : Nat) (err : String) : Except String Font × List FFICall :=
  ((if rawRet = 0 then Except.error err else Except.ok ⟨rawRet, true⟩),
   [FFICall.openFontIndex filename ptsize index])

/-- lib.rs Font::set_style (lines 172-177): TTF_SetFontStyle on the handle;
the Font value itself (raw, owned) is unchanged. -/
def set_style (self : Font) (stylesBits : Int) : Font × List FFICall :=
  (self, [FFICall.setFontStyle self.raw stylesBits])

/-- lib.rs Font::set_outline (lines 186-191). -/
def set_outline (self : Font) (outline : Int) : Font × List FFICall :=
  (self, [FFICall.setFontOutline self.raw outline])

/-- lib.rs Font::set_hinting (lines 206-211). -/
def set_hinting (self : Font) (hinting : Int) : Font × List FFICall :=
  (self, [FFICall.setFontHinting self.raw hinting])

/-- lib.rs Font::set_kerning (lines 220-225). -/
def set_kerning (self : Font) (kerning : Int) : Font × List FFICall :=
  (self, [FFICall.setFontKerning self.raw kerning])

/-- lib.rs Font::index_of_char (lines 294-304): query TTF_GlyphIsProvided
with `ch as u16`; None iff the native call returns 0, else Some(ret).
`ret` is the native return value. -/
def index_of_char (self : Font) (ch : Char) (ret : Int) :
    Option Int × List FFICall :=
  ((if ret = 0 then none else some ret),
   [FFICall.glyphIsProvided self.raw (charToU16 ch)])

/-- lib.rs Font::metrics_of_char (lines 306-324): call TTF_GlyphMetrics with
`ch as u16`; None iff the status is nonzero, else Some of the five values
the native call produced. -/
def metrics_of_char (self : Font) (ch : Char) (native : GlyphMetricsNative) :
    Option GlyphMetrics × List FFICall :=
  ((if native.ret ≠ 0 then none
    else some ⟨native.minx, native.maxx, native.miny, native.maxy,
               native.advance⟩),
   [FFICall.glyphMetrics self.raw (charToU16 ch)])

/-- lib.rs Font::size_of_bytes (lines 326-339): CString::new(text).unwrap()
(the Option layer: none = panic on interior NUL), then TTF_SizeText;
Err(get_error()) iff the status is nonzero, else Ok (w, h).  `ret`, `w`, `h`
are the status and out-parameters the native call produces. -/
def size_of_bytes (self : Font) (text : List Nat) (ret w h : Int)
    (err : String) : Option (Except String (Int × Int) × List FFICall) :=
  (cstring_new text).map (fun ctext =>
    ((if ret ≠ 0 then Except.error err else Except.ok (w, h)),
     [FFICall.sizeText self.raw ctext]))

/-- lib.rs Font::size_of_str (lines 341-354): like size_of_bytes but over
the string's UTF-8 bytes, via TTF_SizeUTF8. -/
def size_of_str (self : Font) (textBytes : List Nat) (ret w h : Int)
    (err : String) : Option (Except String (Int × Int) × List FFICall) :=
  (cstring_new textBytes).map (fun ctext =>
    ((if ret ≠ 0 then Except.error err else Except.ok (w, h)),
     [FFICall.sizeUTF8 self.raw ctext]))

/-- lib.rs Font::render_bytes_solid (lines 356-367): CString conversion
(none = panic on interior NUL), TTF_RenderText_Solid, Err(get_error()) iff
the returned surface pointer is null, else Ok(Surface::from_ll(raw, true)). -/
def render_bytes_solid (self : Font) (text : List Nat) (fg : Color)
    (rawRet : Nat) (err : String) :
    Option (Except String Surface × List FFICall) :=
  (cstring_new text).map (fun ctext =>
    ((if rawRet = 0 then Except.error err else Except.ok ⟨rawRet, true⟩),
     [FFICall.renderTextSolid self.raw ctext (color_to_c_color fg)]))

/-- lib.rs Font::render_char_solid (lines 382-392): TTF_RenderGlyph_Solid
with `ch as u16`; Err(get_error()) iff the surface pointer is null. -/
def render_char_solid (self : Font) (ch : Char) (fg : Color)
    (rawRet : Nat) (err : String) : Except String Surface × List FFICall :=
  ((if rawRet = 0 then Except.error err else Except.ok ⟨rawRet, true⟩),
   [FFICall.renderGlyphSolid self.raw (charToU16 ch) (color_to_c_color fg)])

/-- lib.rs Font::render_char_shaded (lines 420-430): TTF_RenderGlyph_Shaded
with `ch as u16`. -/
def render_char_shaded (self : Font) (ch : Char) (fg bg : Color)
    (rawRet : Nat) (err : String) : Except String Surface × List FFICall :=
  ((if rawRet = 0 then Except.error err else Except.ok ⟨rawRet, true⟩),
   [FFICall.renderGlyphShaded self.raw (charToU16 ch)
      (color_to_c_color fg) (color_to_c_color bg)])

/-- lib.rs Font::render_char_blended (lines 458-468): TTF_RenderGlyph_Blended
with `ch as u16`. -/
def render_char_blended (self : Font) (ch : Char) (fg : Color)
    (rawRet : Nat) (err : String) : Except String Surface × List FFICall :=
  ((if rawRet = 0 then Except.error err else Except.ok ⟨rawRet, true⟩),
   [FFICall.renderGlyphBlended self.raw (charToU16 ch) (color_to_c_color fg)])

end Font

/-- The rwops a lib.rs Font keeps alive: none, structurally — the struct's
only fields are `raw` and `owned` (lib.rs lines 115-118), so a Font from
lib.rs cannot retain a data source. -/
def Font.retainedRWops (_ : Font) : Option RWops := none

namespace font

/-- Modelled from the spec: the crate's `font` module (the lifetime-carrying
`Font<'b>` type and its constructors), used by context.rs but absent from
the provided sources.  Per the spec, a data source conceptually transferred
to the font must not end its lifetime before the font does, so this Font
stores the optional transferred rwops alongside the raw handle. -/
structure Font where
  raw : Nat
  rwops : Option RWops
deriving DecidableEq, Repr

/-- Modelled from the spec: internal_load_font_from_ll, called from
context.rs as internal_load_font_from_ll(raw, Some(rwops)); it wraps the raw
handle together with the optional backing rwops. -/
def internal_load_font_from_ll (raw : Nat) (rwops : Option RWops) :
    font.Font :=
  ⟨raw, rwops⟩

/-- The rwops a font-module Font keeps alive: its stored backing rwops. -/
def Font.retainedRWops (f : font.Font) : Option RWops := f.rwops

/-- Modelled from the spec: internal_load_font, the path-based loader behind
Sdl2TtfContext::load_font; it opens the file natively and, like every loader
in the sources, returns Err(get_error()) iff the handle is null, with no
backing rwops to store. -/
def internal_load_font (path : String) (point_size : Nat) (rawRet : Nat)
    (err : String) : Except String font.Font × List FFICall :=
  ((if rawRet = 0 then Except.error err
    else Except.ok (internal_load_font_from_ll rawRet none)),
   [FFICall.openFont path (point_size : Int)])

/-- Modelled from the spec: internal_load_font_at_index, the path-based
loader behind Sdl2TtfContext::load_font_at_index. -/
def internal_load_font_at_index (path : String) (index : Nat)
    (point_size : Nat) (rawRet : Nat) (err : String) :
    Except String font.Font × List FFICall :=
  ((if rawRet = 0 then Except.error err
    else Except.ok (internal_load_font_from_ll rawRet none)),
   [FFICall.openFontIndex path (point_size : Int) (index : Int)])

end font

namespace context

/-- context.rs Sdl2TtfContext::load_font (lines 32-34): delegates to
internal_load_font. -/
def load_font (path : String) (point_size : Nat) (rawRet : Nat)
    (err : String) : Except String font.Font × List FFICall :=
  font.internal_load_font path point_size rawRet err

/-- context.rs Sdl2TtfContext::load_font_at_index (lines 38-41): delegates
to internal_load_font_at_index. -/
def load_font_at_index (path : String) (index : Nat) (point_size : Nat)
    (rawRet : Nat) (err : String) :
    Except String font.Font × List FFICall :=
  font.internal_load_font_at_index path index point_size rawRet err

/-- context.rs Sdl2TtfContext::load_font_from_rwops (lines 45-55): open via
TTF_OpenFontRW(rwops.raw(), 0, point_size); Err(get_error()) on a null
handle, else Ok(internal_load_font_from_ll(raw, Some(rwops))). -/
def load_font_from_rwops (rwops : RWops) (point_size : Nat) (rawRet : Nat)
    (err : String) : Except String font.Font × List FFICall :=
  ((if rawRet = 0 then Except.error err
    else Except.ok (font.internal_load_font_from_ll rawRet (some rwops))),
   [FFICall.openFontRW rwops.raw 0 (point_size : Int)])

/-- context.rs Sdl2TtfContext::load_font_at_index_from_rwops (lines 59-70):
open via TTF_OpenFontIndexRW(rwops.raw(), 0, point_size, index). -/
def load_font_at_index_from_rwops (rwops : RWops) (index : Nat)
    (point_size : Nat) (rawRet : Nat) (err : String) :
    Except String font.Font × List FFICall :=
  ((if rawRet = 0 then Except.error err
    else Except.ok (font.internal_load_font_from_ll rawRet (some rwops))),
   [FFICall.openFontIndexRW rwops.raw 0 (point_size : Int) (index : Int)])

end context

namespace LoaderRWops

/-- lib.rs impl LoaderRWops for RWops, load_font (lines 481-490): open via
TTF_OpenFontRW(self.raw(), 0, ptsize); Err(get_error()) on a null handle,
else Ok(Font::from_ll(raw, true)).  The method borrows self and the
returned Font does not store the rwops. -/
def load_font (self : RWops) (ptsize : Int) (rawRet : Nat) (err : String) :
    Except String Font × List FFICall :=
  ((if rawRet = 0 then Except.error err
    else Except.ok (Font.from_ll rawRet true)),
   [FFICall.openFontRW self.raw 0 ptsize])

/-- lib.rs impl LoaderRWops for RWops, load_font_index (lines 491-500). -/
def load_font_index (self : RWops) (ptsize index : Int) (rawRet : Nat)
    (err : String) : Except String Font × List FFICall :=
  ((if rawRet = 0 then Except.error err
    else Except.ok (Font.from_ll rawRet true)),
   [FFICall.openFontIndexRW self.raw 0 ptsize index])

end LoaderRWops

/-- C1: dropping a Font that owns its handle while the native library is
still initialized closes that handle exactly once; a drop of a non-owning
Font performs no call at all, and no handle is closed when the library is
no longer initialized. -/
theorem C1_font_drop_closes_once (f : Font) (w : Bool) :
    ((f.drop w).count (FFICall.closeFont f.raw)
       = if f.owned && w then 1 else 0)
    ∧ (f.owned = false → f.drop w = [])
    ∧ (w = false → ∀ r, FFICall.closeFont r ∉ f.drop w) := by
  obtain ⟨raw, owned⟩ := f
  cases owned <;> cases w <;>
    simp [Font.drop, List.count_cons, List.count_nil]

/-- C1 witness: a non-owning Font's drop performs no FFI call. -/
theorem C1_font_drop_closes_once_w :
    Font.drop ⟨5, false⟩ true = [] :=
  (C1_font_drop_closes_once ⟨5, false⟩ true).2.1 rfl

/-- C2: when the library is already initialized, context::init returns
Err(AlreadyInitializedError) and lib::init returns true, and neither emits
a TTF_Init call. -/
theorem C2_no_double_init (r e : Int) :
    (context.init true r e).1
      = Except.error InitError.AlreadyInitializedError
    ∧ FFICall.ttfInit ∉ (context.init true r e).2
    ∧ (lib.init true r).1 = true
    ∧ FFICall.ttfInit ∉ (lib.init true r).2 := by
  simp [context.init, lib.init]

/-- C3 counterexample: LoaderRWops::load_font, given the rwops with handle 7
and a successful native open returning handle 42, yields Ok of the Font
(42, owned) — a Font whose fields are raw and owned only, so it retains no
rwops, contrary to the claim that every rwops loader's Font retains the
supplied RWops. -/
theorem C3_no_retention_in_loader_rwops :
    (LoaderRWops.load_font ⟨7⟩ 12 42 "e").1 = Except.ok ⟨42, true⟩
    ∧ Font.retainedRWops ⟨42, true⟩ = none := by
  exact ⟨rfl, rfl⟩

/-- C3 (amended): fonts successfully loaded via the context's rwops loaders
store the supplied RWops for as long as the Font exists, while the
LoaderRWops methods borrow the rwops and return a Font that does not
retain it. -/
theorem C3_rwops_retention (rw : RWops) (idx ps rawRet : Nat)
    (p i : Int) (err : String) :
    (∀ f, (context.load_font_from_rwops rw ps rawRet err).1 = Except.ok f →
       f.retainedRWops = some rw)
    ∧ (∀ f,
        (context.load_font_at_index_from_rwops rw idx ps rawRet err).1
          = Except.ok f → f.retainedRWops = some rw)
    ∧ (∀ f, (LoaderRWops.load_font rw p rawRet err).1 = Except.ok f →
       f.retainedRWops = none)
    ∧ (∀ f, (LoaderRWops.load_font_index rw p i rawRet err).1 = Except.ok f →
       f.retainedRWops = none) := by
  by_cases h : rawRet = 0 <;>
    simp [context.load_font_from_rwops, context.load_font_at_index_from_rwops,
      LoaderRWops.load_font, LoaderRWops.load_font_index,
      font.internal_load_font_from_ll, Font.from_ll, h,
      font.Font.retainedRWops, Font.retainedRWops]

/-- C3 witness: a concrete successful rwops load through the context stores
the supplied rwops in the returned font. -/
theorem C3_rwops_retention_w :
    font.Font.retainedRWops ⟨42, some ⟨7⟩⟩ = some ⟨7⟩ :=
  (C3_rwops_retention ⟨7⟩ 0 12 42 0 0 "e").1 ⟨42, some ⟨7⟩⟩ rfl

/-- C4: context::init succeeds iff the library was not already initialized
and TTF_Init returned 0; a nonzero TTF_Init return yields
InitializationError carrying the last OS error; an already-initialized
library yields AlreadyInitializedError. -/
theorem C4_context_init_result (w : Bool) (r e : Int) :
    ((context.init w r e).1 = Except.ok ⟨⟩ ↔ (w = false ∧ r = 0))
    ∧ (w = false → r ≠ 0 →
        (context.init w r e).1
          = Except.error (InitError.InitializationError e))
    ∧ (w = true →
        (context.init w r e).1
          = Except.error InitError.AlreadyInitializedError) := by
  cases w <;> by_cases hr : r = 0 <;> simp [context.init, hr]

/-- C4 witness: with the library uninitialized and TTF_Init returning 3,
context::init reports InitializationError with OS error 7. -/
theorem C4_context_init_result_w :
    (context.init false 3 7).1
      = Except.error (InitError.InitializationError 7) :=
  (C4_context_init_result false 3 7).2.1 rfl (by decide)

/-- C5: dropping the context emits TTF_Quit exactly once and afterwards
has_been_initialized (and was_inited) report false; the explicit quit()
likewise; and no other wrapper operation ever emits TTF_Quit, so shutdown
happens only via the context drop or quit(). -/
theorem C5_quit_shutdown :
    context.contextDrop.count FFICall.ttfQuit = 1
    ∧ lib.quit.count FFICall.ttfQuit = 1
    ∧ (∀ s, context.has_been_initialized
          (runTrace s context.contextDrop) = false)
    ∧ (∀ s, lib.was_inited (runTrace s lib.quit) = false)
    ∧ (∀ f w, FFICall.ttfQuit ∉ Font.drop f w)
    ∧ (∀ w r e, FFICall.ttfQuit ∉ (context.init w r e).2)
    ∧ (∀ w r, FFICall.ttfQuit ∉ (lib.init w r).2)
    ∧ (∀ fn ps raw err, FFICall.ttfQuit ∉ (Font.from_file fn ps raw err).2)
    ∧ (∀ fn ps i raw err,
        FFICall.ttfQuit ∉ (Font.from_file_index fn ps i raw err).2)
    ∧ (∀ f s, FFICall.ttfQuit ∉ (Font.set_style f s).2)
    ∧ (∀ f o, FFICall.ttfQuit ∉ (Font.set_outline f o).2)
    ∧ (∀ f hn, FFICall.ttfQuit ∉ (Font.set_hinting f hn).2)
    ∧ (∀ f k, FFICall.ttfQuit ∉ (Font.set_kerning f k).2)
    ∧ (∀ f c r, FFICall.ttfQuit ∉ (Font.index_of_char f c r).2)
    ∧ (∀ f c n, FFICall.ttfQuit ∉ (Font.metrics_of_char f c n).2)
    ∧ (∀ f t r w h err res, Font.size_of_bytes f t r w h err = some res →
        FFICall.ttfQuit ∉ res.2)
    ∧ (∀ f t r w h err res, Font.size_of_str f t r w h err = some res →
        FFICall.ttfQuit ∉ res.2)
    ∧ (∀ f t fg raw err res,
        Font.render_bytes_solid f t fg raw err = some res →
        FFICall.ttfQuit ∉ res.2)
    ∧ (∀ f c fg raw err,
        FFICall.ttfQuit ∉ (Font.render_char_solid f c fg raw err).2)
    ∧ (∀ f c fg bg raw err,
        FFICall.ttfQuit ∉ (Font.render_char_shaded f c fg bg raw err).2)
    ∧ (∀ f c fg raw err,
        FFICall.ttfQuit ∉ (Font.render_char_blended f c fg raw err).2)
    ∧ (∀ p ps raw err,
        FFICall.ttfQuit ∉ (font.internal_load_font p ps raw err).2)
    ∧ (∀ p i ps raw err,
        FFICall.ttfQuit ∉ (font.internal_load_font_at_index p i ps raw err).2)
    ∧ (∀ rw ps raw err,
        FFICall.ttfQuit ∉ (context.load_font_from_rwops rw ps raw err).2)
    ∧ (∀ rw i ps raw err, FFICall.ttfQuit ∉
        (context.load_font_at_index_from_rwops rw i ps raw err).2)
    ∧ (∀ rw ps raw err,
        FFICall.ttfQuit ∉ (LoaderRWops.load_font rw ps raw err).2)
    ∧ (∀ rw ps i raw err,
        FFICall.ttfQuit ∉ (LoaderRWops.load_font_index rw ps i raw err).2)
    := by
  refine ⟨rfl, rfl, fun _ => rfl, fun _ => rfl, ?_, ?_, ?_, ?_, ?_, ?_, ?_,
    ?_, ?_, ?_, ?_, ?_, ?_, ?_, ?_, ?_, ?_, ?_, ?_, ?_, ?_, ?_, ?_⟩
  · intro f w
    obtain ⟨raw, owned⟩ := f
    cases owned <;> cases w <;> simp [Font.drop]
  · intro w r e
    cases w <;> by_cases hr : r = 0 <;> simp [context.init, hr]
  · intro w r
    cases w <;> simp [lib.init]
  · intro fn ps raw err; simp [Font.from_file]
  · intro fn ps i raw err; simp [Font.from_file_index]
  · intro f s; simp [Font.set_style]
  · intro f o; simp [Font.set_outline]
  · intro f hn; simp [Font.set_hinting]
  · intro f k; simp [Font.set_kerning]
  · intro f c r; simp [Font.index_of_char]
  · intro f c n; simp [Font.metrics_of_char]
  · intro f t r w h err res hres
    simp only [Font.size_of_bytes, Option.map_eq_some'] at hres
    obtain ⟨a, -, rfl⟩ := hres
    simp
  · intro f t r w h err res hres
    simp only [Font.size_of_str, Option.map_eq_some'] at hres
    obtain ⟨a, -, rfl⟩ := hres
    simp
  · intro f t fg raw err res hres
    simp only [Font.render_bytes_solid, Option.map_eq_some'] at hres
    obtain ⟨a, -, rfl⟩ := hres
    simp
  · intro f c fg raw err; simp [Font.render_char_solid]
  · intro f c fg bg raw err; simp [Font.render_char_shaded]
  · intro f c fg raw err; simp [Font.render_char_blended]
  · intro p ps raw err; simp [font.internal_load_font]
  · intro p i ps raw err; simp [font.internal_load_font_at_index]
  · intro rw ps raw err; simp [context.load_font_from_rwops]
  · intro rw i ps raw err; simp [context.load_font_at_index_from_rwops]
  · intro rw ps raw err; simp [LoaderRWops.load_font]
  · intro rw ps i raw err; simp [LoaderRWops.load_font_index]

/-- C5 witness: a concrete non-panicking size_of_bytes run emits no
TTF_Quit. -/
theorem C5_quit_shutdown_w :
    FFICall.ttfQuit ∉ [FFICall.sizeText 1 ([65] : List Nat)] :=
  C5_quit_shutdown.2.2.2.2.2.2.2.2.2.2.2.2.2.2.2.1 ⟨1, true⟩ [65] 0 0 0 "e"
    (Except.ok (0, 0), [FFICall.sizeText 1 [65]]) rfl

/-- C6: every modelled loader returns Err with the native error string
exactly when the native open call returned a null handle, and otherwise Ok
wrapping that non-null handle. -/
theorem C6_loader_null_iff_error (fn : String) (ps idx : Int)
    (rw : RWops) (n i rawRet : Nat) (err : String) :
    ((Font.from_file fn ps rawRet err).1 = Except.error err ↔ rawRet = 0)
    ∧ (rawRet ≠ 0 →
        (Font.from_file fn ps rawRet err).1 = Except.ok ⟨rawRet, true⟩)
    ∧ ((Font.from_file_index fn ps idx rawRet err).1 = Except.error err
        ↔ rawRet = 0)
    ∧ (rawRet ≠ 0 → (Font.from_file_index fn ps idx rawRet err).1
        = Except.ok ⟨rawRet, true⟩)
    ∧ ((context.load_font fn n rawRet err).1 = Except.error err
        ↔ rawRet = 0)
    ∧ (rawRet ≠ 0 →
        (context.load_font fn n rawRet err).1 = Except.ok ⟨rawRet, none⟩)
    ∧ ((context.load_font_at_index fn i n rawRet err).1 = Except.error err
        ↔ rawRet = 0)
    ∧ (rawRet ≠ 0 → (context.load_font_at_index fn i n rawRet err).1
        = Except.ok ⟨rawRet, none⟩)
    ∧ ((context.load_font_from_rwops rw n rawRet err).1 = Except.error err
        ↔ rawRet = 0)
    ∧ (rawRet ≠ 0 → (context.load_font_from_rwops rw n rawRet err).1
        = Except.ok ⟨rawRet, some rw⟩)
    ∧ ((context.load_font_at_index_from_rwops rw i n rawRet err).1
        = Except.error err ↔ rawRet = 0)
    ∧ (rawRet ≠ 0 →
        (context.load_font_at_index_from_rwops rw i n rawRet err).1
          = Except.ok ⟨rawRet, some rw⟩)
    ∧ ((LoaderRWops.load_font rw ps rawRet err).1 = Except.error err
        ↔ rawRet = 0)
    ∧ (rawRet ≠ 0 →
        (LoaderRWops.load_font rw ps rawRet err).1 = Except.ok ⟨rawRet, true⟩)
    ∧ ((LoaderRWops.load_font_index rw ps idx rawRet err).1
        = Except.error err ↔ rawRet = 0)
    ∧ (rawRet ≠ 0 → (LoaderRWops.load_font_index rw ps idx rawRet err).1
        = Except.ok ⟨rawRet, true⟩) := by
  by_cases h : rawRet = 0 <;>
    simp [Font.from_file, Font.from_file_index, context.load_font,
      context.load_font_at_index, context.load_font_from_rwops,
      context.load_font_at_index_from_rwops, LoaderRWops.load_font,
      LoaderRWops.load_font_index, font.internal_load_font,
      font.internal_load_font_at_index, font.internal_load_font_from_ll,
      Font.from_ll, h]

/-- C6 witness: a concrete successful open (handle 5) yields Ok of the Font
wrapping handle 5. -/
theorem C6_loader_null_iff_error_w :
    (Font.from_file ("f") 12 5 ("e")).1 = Except.ok ⟨5, true⟩ :=
  (C6_loader_null_iff_error ("f") 12 0 ⟨7⟩ 10 0 5 ("e")).2.1 (by decide)

/-- C7: metrics_of_char is None exactly when the native status is nonzero
and otherwise carries the five native values; size_of_str (on text without
an interior NUL) returns Err with the native error string exactly when
TTF_SizeUTF8 returns nonzero, and otherwise Ok (w, h). -/
theorem C7_metrics_and_size (f : Font) (ch : Char)
    (native : GlyphMetricsNative) (tb : List Nat) (ret w h : Int)
    (err : String) :
    ((f.metrics_of_char ch native).1 = none ↔ native.ret ≠ 0)
    ∧ (native.ret = 0 → (f.metrics_of_char ch native).1
        = some ⟨native.minx, native.maxx, native.miny, native.maxy,
                native.advance⟩)
    ∧ (tb.contains 0 = false →
        ((f.size_of_str tb ret w h err).map (fun res => res.1)
          = some (Except.error err) ↔ ret ≠ 0))
    ∧ (tb.contains 0 = false → ret = 0 →
        (f.size_of_str tb ret w h err).map (fun res => res.1)
          = some (Except.ok (w, h))) := by
  by_cases hr : ret = 0 <;> by_cases hn : native.ret = 0 <;>
    simp [Font.metrics_of_char, Font.size_of_str, cstring_new, hr, hn]

/-- C7 witness: on text [65] with native status 0 and size (3, 4),
size_of_str returns Ok (3, 4). -/
theorem C7_metrics_and_size_w :
    (Font.size_of_str ⟨1, true⟩ [65] 0 3 4 "e").map (fun res => res.1)
      = some (Except.ok (3, 4)) :=
  (C7_metrics_and_size ⟨1, true⟩ 'A' ⟨0, 0, 0, 0, 0, 0⟩ [65] 0 3 4
    "e").2.2.2 (by decide) rfl

/-- C8: every successfully loaded Font wraps a non-null handle, and the
mutating setters leave the Font value (hence its handle) unchanged. -/
theorem C8_nonnull_handle (fn : String) (ps idx : Int) (rw : RWops)
    (n i rawRet : Nat) (err : String) (st o hi k : Int) :
    (∀ f, (Font.from_file fn ps rawRet err).1 = Except.ok f → f.raw ≠ 0)
    ∧ (∀ f, (Font.from_file_index fn ps idx rawRet err).1 = Except.ok f →
        f.raw ≠ 0)
    ∧ (∀ f, (context.load_font fn n rawRet err).1 = Except.ok f → f.raw ≠ 0)
    ∧ (∀ f, (context.load_font_at_index fn i n rawRet err).1 = Except.ok f →
        f.raw ≠ 0)
    ∧ (∀ f, (context.load_font_from_rwops rw n rawRet err).1 = Except.ok f →
        f.raw ≠ 0)
    ∧ (∀ f, (context.load_font_at_index_from_rwops rw i n rawRet err).1
        = Except.ok f → f.raw ≠ 0)
    ∧ (∀ f, (LoaderRWops.load_font rw ps rawRet err).1 = Except.ok f →
        f.raw ≠ 0)
    ∧ (∀ f, (LoaderRWops.load_font_index rw ps idx rawRet err).1
        = Except.ok f → f.raw ≠ 0)
    ∧ (∀ f, (Font.set_style f st).1 = f)
    ∧ (∀ f, (Font.set_outline f o).1 = f)
    ∧ (∀ f, (Font.set_hinting f hi).1 = f)
    ∧ (∀ f, (Font.set_kerning f k).1 = f) := by
  by_cases hz : rawRet = 0 <;>
    simp [Font.from_file, Font.from_file_index, context.load_font,
      context.load_font_at_index, context.load_font_from_rwops,
      context.load_font_at_index_from_rwops, LoaderRWops.load_font,
      LoaderRWops.load_font_index, font.internal_load_font,
      font.internal_load_font_at_index, font.internal_load_font_from_ll,
      Font.from_ll, Font.set_style, Font.set_outline, Font.set_hinting,
      Font.set_kerning, hz]

/-- C8 witness: the Font from a concrete successful from_file has a
non-null handle. -/
theorem C8_nonnull_handle_w : Font.raw ⟨5, true⟩ ≠ 0 :=
  (C8_nonnull_handle ("f") 12 0 ⟨7⟩ 10 0 5 ("e") 0 0 0 0).1 ⟨5, true⟩ rfl

/-- C9: size_of_bytes and render_bytes_solid panic (modelled as none)
exactly when the input bytes contain an interior NUL, and never panic on
conversion otherwise. -/
theorem C9_interior_nul_panics (f : Font) (text : List Nat) (ret w h : Int)
    (fg : Color) (rawRet : Nat) (err : String) :
    (f.size_of_bytes text ret w h err = none ↔ text.contains 0 = true)
    ∧ (f.render_bytes_solid text fg rawRet err = none
        ↔ text.contains 0 = true) := by
  by_cases hc : text.contains 0 <;>
    simp [Font.size_of_bytes, Font.render_bytes_solid, cstring_new, hc]

/-- C10: every per-glyph operation queries the native library with the code
point reduced modulo 2^16, so characters congruent modulo 2^16 produce
identical native call traces; code points at or above 2^16 are truncated. -/
theorem C10_u16_truncation (c1 c2 : Char)
    (hcong : c1.toNat % 65536 = c2.toNat % 65536) :
    (∀ f r, (Font.index_of_char f c1 r).2 = (Font.index_of_char f c2 r).2)
    ∧ (∀ f n, (Font.metrics_of_char f c1 n).2
        = (Font.metrics_of_char f c2 n).2)
    ∧ (∀ f fg raw err, (Font.render_char_solid f c1 fg raw err).2
        = (Font.render_char_solid f c2 fg raw err).2)
    ∧ (∀ f fg bg raw err, (Font.render_char_shaded f c1 fg bg raw err).2
        = (Font.render_char_shaded f c2 fg bg raw err).2)
    ∧ (∀ f fg raw err, (Font.render_char_blended f c1 fg raw err).2
        = (Font.render_char_blended f c2 fg raw err).2)
    ∧ (∀ c : Char, charToU16 c = c.toNat % 65536)
    ∧ (∀ c : Char, 65536 ≤ c.toNat → charToU16 c ≠ c.toNat) := by
  refine ⟨?_, ?_, ?_, ?_, ?_, fun c => rfl, ?_⟩
  · intro f r; simp [Font.index_of_char, charToU16, hcong]
  · intro f n; simp [Font.metrics_of_char, charToU16, hcong]
  · intro f fg raw err; simp [Font.render_char_solid, charToU16, hcong]
  · intro f fg bg raw err; simp [Font.render_char_shaded, charToU16, hcong]
  · intro f fg raw err; simp [Font.render_char_blended, charToU16, hcong]
  · intro c hc
    simp only [charToU16]
    omega

/-- C10 witness: the characters with code points 65 and 65601 (congruent
modulo 2^16) produce the same glyph-availability query. -/
theorem C10_u16_truncation_w :
    (Font.index_of_char ⟨1, true⟩ (Char.ofNat 65) 0).2
      = (Font.index_of_char ⟨1, true⟩ (Char.ofNat 65601) 0).2 :=
  (C10_u16_truncation (Char.ofNat 65) (Char.ofNat 65601) (by decide)).1
    ⟨1, true⟩ 0

end Sdl2Ttf
